import Mathlib

/-
Shallow embedding of src/dynamics365_client/main.py.

The repository is a thin CRUD client over the Dynamics 365 REST API.  The
external collaborators (the fast_azure_client authentication library and the
requests HTTP library) are modelled as oracle functions supplied to each
operation; the client code itself is translated faithfully, including the
fact that `_make_request` declares `headers: dict = None` and then calls
`headers.update(...)` unconditionally, which raises AttributeError whenever
no headers dictionary is supplied (and no public operation supplies one).
-/

namespace Dynamics365

/-- JSON values as produced by `response.json()` in the Python source. -/
inductive Json : Type where
  | null : Json
  | bool : Bool → Json
  | num : Int → Json
  | str : String → Json
  | arr : List Json → Json
  | obj : List (String × Json) → Json


/-- Python exceptions that the client code can surface: the AttributeError
from calling a method on `None` (or on a non-dict JSON body), and the
HTTPError raised by `response.raise_for_status()` carrying the status code. -/
inductive PyError : Type where
  | attributeError : String → PyError
  | httpError : Nat → PyError


/-- One invocation of the external authentication provider: the constructor
arguments of `fast_azure_client.AuthClient` together with the email and
password passed to `authenticate_email_password`. -/
structure AuthCall : Type where
  client_id : Option String
  client_secret : Option String
  tenant_id : Option String
  scopes : List String
  mode : String
  authority : String
  email : Option String
  password : Option String


/-- An outbound HTTP request as handed to the requests library.  Header
values are `Option String` because Python would happily place `None` as a
header value. -/
structure HttpRequest : Type where
  method : String
  url : String
  headers : List (String × Option String)
  jsonBody : Option Json


/-- The body of an HTTP response: either a parseable JSON document or raw
text (possibly empty) on which `response.json()` raises JSONDecodeError. -/
inductive HttpBody : Type where
  | jsonBody : Json → HttpBody
  | rawBody : String → HttpBody


/-- An HTTP response: status code and body. -/
structure HttpResponse : Type where
  status : Nat
  body : HttpBody


/-- The configuration stored by `MicrosoftServicesClient.__init__`. -/
structure MicrosoftServicesClient : Type where
  environment_url : String
  access_token : Option String
  client_id : Option String
  client_secret : Option String
  tenant_id : Option String
  email : Option String
  password : Option String
  disable_token_refresh : Bool


/-- The observable outcome of one public operation: the authentication
provider invocations it performed, the HTTP requests it dispatched to the
API, and its result (a JSON value, or the Python exception it raised). -/
structure CallResult : Type where
  authCalls : List AuthCall
  httpRequests : List HttpRequest
  result : Except PyError Json


/-- Oracle for the external authentication library: given the invocation
data it yields a token string. -/
def AuthProvider : Type := AuthCall → String

/-- Oracle for the HTTP transport: given a request it yields a response. -/
def Transport : Type := HttpRequest → HttpResponse

/-- Truthiness of a Python `Optional[str]`: `None` and the empty string are
falsy, every other string is truthy. -/
def pyTruthy : Option String → Bool
  | none => false
  | some s => s != ""

/-- Python `dict.update` restricted to inserting one key: replace the value
at an existing key, otherwise append the binding. -/
def dictUpdate (hs : List (String × Option String)) (k : String) (v : Option String) :
    List (String × Option String) :=
  if hs.any (fun p => p.1 == k) then
    hs.map (fun p => if p.1 == k then (k, v) else p)
  else hs ++ [(k, v)]

/-- Python `json_response.get("value", json_response)`: on a dict, look up
the key and default to the whole dict; on any other JSON value, attribute
access `.get` raises AttributeError. -/
def dictGet (j : Json) (k : String) : Except PyError Json :=
  match j with
  | Json.obj fields =>
      match fields.lookup k with
      | some v => Except.ok v
      | none => Except.ok j
  | _ => Except.error (PyError.attributeError "get")

/-- Translation of `_generate_base_url`: plain string concatenation of the
environment URL, the literal segment `api/data/v9.0/` and the item path. -/
def _generate_base_url (c : MicrosoftServicesClient) (item : String) : String :=
  c.environment_url ++ "api/data/v9.0/" ++ item

/-- The `AuthCall` that `_generate_user_token` performs: an `AuthClient`
built from the configured client id, client secret and tenant id, with the
scope list derived from the environment URL, mode `b2c`, the fixed
authority URL, and `authenticate_email_password` applied to the configured
email and password. -/
def userTokenCall (c : MicrosoftServicesClient) : AuthCall :=
  { client_id := c.client_id
    client_secret := c.client_secret
    tenant_id := c.tenant_id
    scopes := [c.environment_url ++ "user_impersonation"]
    mode := "b2c"
    authority := "https://login.microsoftonline.com/organizations"
    email := c.email
    password := c.password }

/-- Translation of `_generate_user_token` on the automatic dispatch path
(`return_auth_url = False`): it performs the auth invocation described by
`userTokenCall` and returns the token the provider yields. -/
def _generate_user_token (c : MicrosoftServicesClient) (auth : AuthProvider) :
    AuthCall × String :=
  (userTokenCall c, auth (userTokenCall c))

/-- The fixed AttributeError message produced by `headers.update(...)` when
`headers` is `None`. -/
def updateOnNone : PyError :=
  PyError.attributeError "NoneType object has no attribute update"

/-- Translation of `_make_request`.  Steps, in source order: resolve the
access token (invoking the auth provider unless `disable_token_refresh`),
call `headers.update(\x7b'Authorization': access_token\x7d)` — which raises
AttributeError when `headers` is `None` —, build the URL, dispatch the
request, `raise_for_status` (HTTPError on status 400–599), parse the body as
JSON substituting the fixed placeholder on decode failure, and return
`json_response.get("value", json_response)`. -/
def _make_request (c : MicrosoftServicesClient) (auth : AuthProvider) (net : Transport)
    (path : String) (method : String) (payload : Option Json)
    (headers : Option (List (String × Option String))) : CallResult :=
  let tokenStep : List AuthCall × Option String :=
    if !c.disable_token_refresh then
      let g := _generate_user_token c auth
      ([g.1], some g.2)
    else
      ([], c.access_token)
  match headers with
  | none =>
      { authCalls := tokenStep.1
        httpRequests := []
        result := Except.error updateOnNone }
  | some hs =>
      let hs2 := dictUpdate hs "Authorization" tokenStep.2
      let url := _generate_base_url c path
      let req : HttpRequest :=
        if method == "get" then
          { method := "get", url := url, headers := hs2, jsonBody := none }
        else
          { method := method, url := url, headers := hs2, jsonBody := payload }
      let resp := net req
      if 400 ≤ resp.status ∧ resp.status < 600 then
        { authCalls := tokenStep.1
          httpRequests := [req]
          result := Except.error (PyError.httpError resp.status) }
      else
        let body := match resp.body with
          | HttpBody.jsonBody j => j
          | HttpBody.rawBody _ => Json.obj [("value", Json.str "request successful")]
        { authCalls := tokenStep.1
          httpRequests := [req]
          result := dictGet body "value" }

/-- Translation of `get`: append the `(id)` segment when the id is truthy,
then delegate with method `get`, no payload and no headers argument. -/
def get (c : MicrosoftServicesClient) (auth : AuthProvider) (net : Transport)
    (item : String) (item_id : Option String) : CallResult :=
  let item2 := if pyTruthy item_id then item ++ "(" ++ item_id.getD "" ++ ")" else item
  _make_request c auth net item2 "get" none none

/-- Translation of `create`: delegate with method `post`, the payload, and
no headers argument. -/
def create (c : MicrosoftServicesClient) (auth : AuthProvider) (net : Transport)
    (item : String) (payload : Json) : CallResult :=
  _make_request c auth net item "post" (some payload) none

/-- Translation of `update`: delegate on path `item(item_id)` with method
`patch`, the payload, and no headers argument. -/
def update (c : MicrosoftServicesClient) (auth : AuthProvider) (net : Transport)
    (item : String) (item_id : String) (payload : Json) : CallResult :=
  _make_request c auth net (item ++ "(" ++ item_id ++ ")") "patch" (some payload) none

/-- Translation of `delete`: delegate on path `item(item_id)` with method
`delete`, no payload and no headers argument. -/
def delete (c : MicrosoftServicesClient) (auth : AuthProvider) (net : Transport)
    (item : String) (item_id : String) : CallResult :=
  _make_request c auth net (item ++ "(" ++ item_id ++ ")") "delete" none none

/-- A sample client configuration with token refresh enabled. -/
def sampleClient : MicrosoftServicesClient :=
  { environment_url := "https://org.crm.dynamics.com/"
    access_token := some "statictok"
    client_id := some "cid"
    client_secret := some "csec"
    tenant_id := some "tid"
    email := some "user@contoso.com"
    password := some "pw"
    disable_token_refresh := false }

/-- A sample client configuration with token refresh disabled and a static
access token. -/
def staticClient : MicrosoftServicesClient :=
  { sampleClient with disable_token_refresh := true }

/-- A sample authentication oracle returning a fresh token. -/
def sampleAuth : AuthProvider := fun _ => "freshtok"

/-- A transport whose every response is 200 with a JSON body wrapping a
`value` field. -/
def net200 : Transport := fun _ =>
  { status := 200, body := HttpBody.jsonBody (Json.obj [("value", Json.str "ok")]) }

/-- A transport whose every response is 200 with an empty, non-JSON body. -/
def netEmptyBody : Transport := fun _ =>
  { status := 200, body := HttpBody.rawBody "" }

/-- A transport whose every response is 404. -/
def net404 : Transport := fun _ =>
  { status := 404, body := HttpBody.rawBody "not found" }

/-- Claim C1: every public operation (get, create, update, delete) passes no
headers argument, so `_make_request` runs with `headers = None`; the
`headers.update` step then fails with an AttributeError, so every call
raises before any HTTP request is dispatched, for all configurations,
oracles and inputs. -/
theorem all_public_ops_raise_before_dispatch
    (c : MicrosoftServicesClient) (auth : AuthProvider) (net : Transport)
    (item gid : String) (item_id : Option String) (payload : Json) :
    ((get c auth net item item_id).result = Except.error updateOnNone
      ∧ (get c auth net item item_id).httpRequests = [])
    ∧ ((create c auth net item payload).result = Except.error updateOnNone
      ∧ (create c auth net item payload).httpRequests = [])
    ∧ ((update c auth net item gid payload).result = Except.error updateOnNone
      ∧ (update c auth net item gid payload).httpRequests = [])
    ∧ ((delete c auth net item gid).result = Except.error updateOnNone
      ∧ (delete c auth net item gid).httpRequests = []) :=
  ⟨⟨rfl, rfl⟩, ⟨rfl, rfl⟩, ⟨rfl, rfl⟩, ⟨rfl, rfl⟩⟩

/-- A sample client configuration whose environment URL has no trailing
slash, to exhibit the absence of separator insertion. -/
def bareClient : MicrosoftServicesClient :=
  { sampleClient with environment_url := "https://contoso" }

/-- Claim C6: with token refresh enabled, every public operation invokes the
authentication provider exactly once, with the configured client id, client
secret, tenant id, email and password; nothing is cached, each call performs
its own invocation. -/
theorem auth_provider_invoked_once_per_call
    (c : MicrosoftServicesClient) (auth : AuthProvider) (net : Transport)
    (item gid : String) (item_id : Option String) (payload : Json)
    (h : c.disable_token_refresh = false) :
    (get c auth net item item_id).authCalls = [userTokenCall c]
    ∧ (create c auth net item payload).authCalls = [userTokenCall c]
    ∧ (update c auth net item gid payload).authCalls = [userTokenCall c]
    ∧ (delete c auth net item gid).authCalls = [userTokenCall c]
    ∧ (userTokenCall c).client_id = c.client_id
    ∧ (userTokenCall c).client_secret = c.client_secret
    ∧ (userTokenCall c).tenant_id = c.tenant_id
    ∧ (userTokenCall c).email = c.email
    ∧ (userTokenCall c).password = c.password := by
  refine ⟨?_, ?_, ?_, ?_, rfl, rfl, rfl, rfl, rfl⟩ <;>
    simp [get, create, update, delete, _make_request, _generate_user_token, h]

/-- Witness for claim C6 at a concrete configuration. -/
theorem auth_provider_invoked_once_per_call_witness :
    sampleClient.disable_token_refresh = false
    ∧ (get sampleClient sampleAuth net200 "accounts" none).authCalls
        = [userTokenCall sampleClient] :=
  ⟨rfl,
    (auth_provider_invoked_once_per_call sampleClient sampleAuth net200
      "accounts" "1" none Json.null rfl).1⟩

/-- Claim C8: for every path the generated request URL is exactly the
configured environment URL concatenated directly with the literal
`api/data/v9.0/` and the path; the concrete conjunct shows that no
separator is inserted when the environment URL lacks a trailing slash. -/
theorem request_url_is_plain_concat :
    (∀ (c : MicrosoftServicesClient) (p : String),
      _generate_base_url c p = c.environment_url ++ "api/data/v9.0/" ++ p)
    ∧ _generate_base_url bareClient "accounts" = "https://contosoapi/data/v9.0/accounts" :=
  ⟨fun _ _ => rfl, rfl⟩

/-- Claim C2 at a failing input: with a transport answering 200 and an
empty body, the call does not return the placeholder object; it raises the
AttributeError from `headers.update` without dispatching any request. -/
theorem empty_body_call_raises_instead_of_placeholder :
    (get sampleClient sampleAuth netEmptyBody "accounts" none).result
      = Except.error updateOnNone
    ∧ (get sampleClient sampleAuth netEmptyBody "accounts" none).httpRequests = [] :=
  ⟨rfl, rfl⟩

/-- Claim C3 at a failing input: with a transport answering 200 and the JSON
body containing a `value` key, the call does not return that value; it
raises the AttributeError from `headers.update` without dispatching any
request. -/
theorem value_unwrapping_never_reached :
    (get sampleClient sampleAuth net200 "accounts" none).result
      = Except.error updateOnNone
    ∧ (get sampleClient sampleAuth net200 "accounts" none).httpRequests = [] :=
  ⟨rfl, rfl⟩

/-- Claim C4 at a failing input: get with a resource and id dispatches no
HTTP GET at all; the call raises the AttributeError from `headers.update`. -/
theorem get_dispatches_no_request :
    (get sampleClient sampleAuth net200 "accounts" (some "42")).httpRequests = []
    ∧ (get sampleClient sampleAuth net200 "accounts" (some "42")).result
      = Except.error updateOnNone :=
  ⟨rfl, rfl⟩

/-- Claim C5 at a failing input: with `disable_token_refresh` set, the
authentication provider is indeed never invoked, but the static token is
never placed in an Authorization header either: no request is dispatched and
the call raises the AttributeError from `headers.update`. -/
theorem static_token_never_reaches_a_header :
    (get staticClient sampleAuth net200 "accounts" none).authCalls = []
    ∧ (get staticClient sampleAuth net200 "accounts" none).httpRequests = []
    ∧ (get staticClient sampleAuth net200 "accounts" none).result
      = Except.error updateOnNone :=
  ⟨rfl, rfl, rfl⟩

/-- Claim C7 at a failing input: with a transport answering 404, the call
raises the AttributeError from `headers.update`, not an error carrying the
HTTP status, and zero (not one) outbound requests are issued. -/
theorem non2xx_status_never_observed :
    (get sampleClient sampleAuth net404 "accounts" none).result
      = Except.error updateOnNone
    ∧ (get sampleClient sampleAuth net404 "accounts" none).httpRequests.length = 0 :=
  ⟨rfl, rfl⟩

/-- Claim C9 at a failing input: create dispatches no HTTP POST at all; the
call raises the AttributeError from `headers.update`. -/
theorem create_dispatches_no_request :
    (create sampleClient sampleAuth net200 "accounts"
        (Json.obj [("name", Json.str "Acme")])).httpRequests = []
    ∧ (create sampleClient sampleAuth net200 "accounts"
        (Json.obj [("name", Json.str "Acme")])).result = Except.error updateOnNone :=
  ⟨rfl, rfl⟩

/-- Claim C10 at a failing input: get with an empty-string id is identical
to get with no id (the id segment is appended only for a truthy id), but
neither dispatches any GET request: both raise the AttributeError from
`headers.update`. -/
theorem empty_id_identical_to_none_but_no_get :
    get sampleClient sampleAuth net200 "accounts" (some "")
      = get sampleClient sampleAuth net200 "accounts" none
    ∧ (get sampleClient sampleAuth net200 "accounts" (some "")).httpRequests = []
    ∧ (get sampleClient sampleAuth net200 "accounts" (some "")).result
      = Except.error updateOnNone :=
  ⟨rfl, rfl, rfl⟩

end Dynamics365
